import Mathlib

/-!
Verification development for the CollisionCloud-Frost accident-reconstruction
frontend and its analytical core. Definitions are shallow embeddings of the
TypeScript source under `accident-frontend/src`; components of the analytical
core whose implementation is not part of the repository snapshot (the backend
homography session lifecycle, the collision detector's IoU / severity /
phase-extraction routines) are modelled from the specification and marked as
such in their doc comments. Numbers of the source (TypeScript `number`) are
embedded as rationals; frame indices of the modelled detector are naturals.
-/

/-- Embeds the `Point` interface of `CalibrationComponent.tsx`:
`{id, imageX, imageY, mapLat?, mapLng?, orderIdx}`. Optional map
coordinates are `Option ℚ`. -/
structure CalPoint where
  id : String
  imageX : ℚ
  imageY : ℚ
  mapLat : Option ℚ
  mapLng : Option ℚ
  orderIdx : ℕ
  deriving DecidableEq, Repr

/-- Embeds the `validPoints` filter of `handleSave`:
`points.filter((p) => p.mapLat !== undefined && p.mapLng !== undefined)`. -/
def validPoints (points : List CalPoint) : List CalPoint :=
  points.filter (fun p => p.mapLat.isSome && p.mapLng.isSome)

/-- Embeds the outcome of `handleSave` in `CalibrationComponent.tsx`: fewer
than 4 points with both map coordinates sets an error message and returns
without saving; otherwise the save proceeds. -/
def handleSave (points : List CalPoint) : Except String Unit :=
  if (validPoints points).length < 4 then
    Except.error "At least 4 points with map coordinates are required"
  else
    Except.ok ()

/-- Embeds the `disabled` expression of the Save Points button:
`saving || points.length < 4`. Note it counts all points, with or without
map coordinates. -/
def saveButtonDisabled (saving : Bool) (points : List CalPoint) : Bool :=
  saving || points.length < 4

/-- Embeds `handleMapCoordinatesChange` of `CalibrationComponent.tsx`:
`points.map((p) => p.id === pointId ? { ...p, mapLat: lat, mapLng: lng } : p)`.
No range validation is performed. -/
def handleMapCoordinatesChange (points : List CalPoint) (pointId : String)
    (lat lng : ℚ) : List CalPoint :=
  points.map (fun p =>
    if p.id = pointId then { p with mapLat := some lat, mapLng := some lng } else p)

/-- Embeds `handleRemovePoint`: `points.filter((p) => p.id !== pointId)`. -/
def handleRemovePoint (points : List CalPoint) (pointId : String) : List CalPoint :=
  points.filter (fun p => p.id ≠ pointId)

/-- Embeds `handleImageClick`: appends a new point (with no map coordinates)
whose `orderIdx` is the current length of the list. -/
def handleImageClick (points : List CalPoint) (newId : String) (x y : ℚ) :
    List CalPoint :=
  points ++ [{ id := newId, imageX := x, imageY := y, mapLat := none,
               mapLng := none, orderIdx := points.length }]

/-- Modelled from the spec: the GeoProjector's coordinate validation, which
is implemented in the backend and absent from the repository snapshot.
Per §4.1 it "fails with `InvalidCoordinateError` if latitude is outside
`[-90,90]` or longitude outside `[-180,180]`". -/
def geoCoordinateCheck (lat lng : ℚ) : Except String Unit :=
  if lat < -90 ∨ 90 < lat ∨ lng < -180 ∨ 180 < lng then
    Except.error "InvalidCoordinateError"
  else
    Except.ok ()

/-- A sample point with no map coordinates, as `handleImageClick` creates. -/
def bareCalPoint (i : ℕ) : CalPoint :=
  { id := toString i, imageX := 0, imageY := 0, mapLat := none, mapLng := none,
    orderIdx := i }

/-- Four calibration points none of which carries map coordinates. -/
def fourBarePoints : List CalPoint :=
  [bareCalPoint 0, bareCalPoint 1, bareCalPoint 2, bareCalPoint 3]

/-- C1 (counterexample): with 4 points none of which carries map coordinates,
fewer than 4 coordinate-carrying points are supplied and `handleSave` fails,
yet the Save button is NOT disabled — its guard counts all points
(`points.length < 4`), not the coordinate-carrying ones. This refutes the
claim that the Save action is disabled whenever fewer than 4 points with
both map coordinates are supplied. -/
theorem save_button_not_disabled_on_coordless_points :
    (validPoints fourBarePoints).length < 4 ∧
    (handleSave fourBarePoints).isOk = false ∧
    saveButtonDisabled false fourBarePoints = false := by
  decide

/-- C1 (amended): `handleSave` fails with the insufficient-points error
exactly when fewer than 4 points carry both map coordinates, and with 4 or
more such points the save proceeds; the Save button, independently, is
disabled exactly while saving or when the total number of points (counted
regardless of coordinates) is below 4. -/
theorem handleSave_insufficient_points (points points2 : List CalPoint)
    (saving : Bool)
    (h : (validPoints points).length < 4)
    (h2 : 4 ≤ (validPoints points2).length) :
    handleSave points =
      Except.error "At least 4 points with map coordinates are required" ∧
    handleSave points2 = Except.ok () ∧
    saveButtonDisabled saving points = (saving || decide (points.length < 4)) := by
  refine ⟨?_, ?_, rfl⟩
  · simp [handleSave, h]
  · simp [handleSave, Nat.not_lt.mpr h2]

/-- A list of four calibration points all carrying map coordinates, matching
the pairs of `mockSession` in `CalibrationComponent.tsx`. -/
def fourCoordPoints : List CalPoint :=
  [{ id := "pair-1", imageX := 1/4, imageY := 3/10, mapLat := some (377749/10000),
     mapLng := some (-1224194/10000), orderIdx := 0 },
   { id := "pair-2", imageX := 3/4, imageY := 3/10, mapLat := some (377750/10000),
     mapLng := some (-1224195/10000), orderIdx := 1 },
   { id := "pair-3", imageX := 1/4, imageY := 7/10, mapLat := some (377748/10000),
     mapLng := some (-1224193/10000), orderIdx := 2 },
   { id := "pair-4", imageX := 3/4, imageY := 7/10, mapLat := some (377751/10000),
     mapLng := some (-1224196/10000), orderIdx := 3 }]

/-- C1 (witness): the amended theorem applied to four coordinate-less points
(save fails, button nonetheless enabled) and four coordinate-carrying points
(save proceeds). -/
theorem handleSave_insufficient_points_witness :
    handleSave fourBarePoints =
      Except.error "At least 4 points with map coordinates are required" ∧
    handleSave fourCoordPoints = Except.ok () ∧
    saveButtonDisabled false fourBarePoints =
      (false || decide (fourBarePoints.length < 4)) :=
  handleSave_insufficient_points fourBarePoints fourCoordPoints false
    (by decide) (by decide)

/-- A single calibration point awaiting map coordinates. -/
def pendingPoint : CalPoint :=
  { id := "point-1", imageX := 0, imageY := 0, mapLat := none,
    mapLng := none, orderIdx := 0 }

/-- C7 (counterexample): entering latitude 100 (outside `[-90, 90]`) through
`handleMapCoordinatesChange` stores it unchanged, and the resulting point
counts as a valid coordinate-carrying calibration point for `handleSave` —
no rejection of the out-of-range value happens in the frontend path. -/
theorem out_of_range_latitude_is_stored :
    handleMapCoordinatesChange [pendingPoint] "point-1" 100 0 =
      [{ pendingPoint with mapLat := some 100, mapLng := some 0 }] ∧
    (90 : ℚ) < 100 ∧
    (validPoints
      (handleMapCoordinatesChange [pendingPoint] "point-1" 100 0)).length = 1 := by
  decide

/-- C7 (amended): the range check lives in the (spec-modelled) GeoProjector:
it rejects with `InvalidCoordinateError` exactly the coordinates with
latitude outside `[-90, 90]` or longitude outside `[-180, 180]`, and accepts
in-range ones; the frontend's `handleMapCoordinatesChange`, by contrast,
stores whatever numeric value is entered for the matching point, performing
no range validation. -/
theorem invalid_coordinate_rejected (lat lng lat2 lng2 : ℚ)
    (points : List CalPoint) (pointId : String) (p : CalPoint)
    (hbad : lat < -90 ∨ 90 < lat ∨ lng < -180 ∨ 180 < lng)
    (hlat1 : -90 ≤ lat2) (hlat2 : lat2 ≤ 90)
    (hlng1 : -180 ≤ lng2) (hlng2 : lng2 ≤ 180)
    (hp : p ∈ points) (hid : p.id = pointId) :
    geoCoordinateCheck lat lng = Except.error "InvalidCoordinateError" ∧
    geoCoordinateCheck lat2 lng2 = Except.ok () ∧
    { p with mapLat := some lat, mapLng := some lng } ∈
      handleMapCoordinatesChange points pointId lat lng := by
  refine ⟨?_, ?_, ?_⟩
  · simp [geoCoordinateCheck, hbad]
  · have hnot : ¬(lat2 < -90 ∨ 90 < lat2 ∨ lng2 < -180 ∨ 180 < lng2) := by
      rintro (h | h | h | h) <;> linarith
    simp [geoCoordinateCheck, hnot]
  · refine List.mem_map.mpr ⟨p, hp, ?_⟩
    simp [hid]

/-- Embeds the lifecycle status values `draft / solving / solved / failed`
of a `HomographySession` (spec §3). -/
inductive SessionStatus where
  | draft
  | solving
  | solved
  | failed
  deriving DecidableEq, Repr

/-- Modelled from the spec: the mutable core of a backend HomographySession
(its lifecycle status and optional 3×3 matrix); the backend implementation
is absent from the repository snapshot. -/
structure SessionState where
  status : SessionStatus
  matrix : Option (List (List ℚ))
  deriving DecidableEq, Repr

/-- Events that mutate a session: point edits and the stages of a solve. -/
inductive SessionEvent where
  | editPairs
  | solveBegin
  | solveSuccess (m : List (List ℚ))
  | solveFailure
  deriving Repr

/-- Modelled from the spec: the HomographySession state machine of §4.2/§3,
whose backend implementation is absent from the repository snapshot:
`draft --[solve begins]--> solving --[completes]--> solved|failed`;
`solved --[edit pairs]--> draft` and `failed --[edit pairs]--> draft`
(invalidating the stale matrix); edits in `draft` stay in `draft`; a solve
only begins from `draft`; success stores the matrix, failure leaves it
absent. -/
inductive SessionStep : SessionState → SessionEvent → SessionState → Prop where
  | editDraft (m : Option (List (List ℚ))) :
      SessionStep ⟨.draft, m⟩ .editPairs ⟨.draft, m⟩
  | editSolved (m : Option (List (List ℚ))) :
      SessionStep ⟨.solved, m⟩ .editPairs ⟨.draft, none⟩
  | editFailed (m : Option (List (List ℚ))) :
      SessionStep ⟨.failed, m⟩ .editPairs ⟨.draft, none⟩
  | beginSolve (m : Option (List (List ℚ))) :
      SessionStep ⟨.draft, m⟩ .solveBegin ⟨.solving, m⟩
  | completeSolveOk (m0 : Option (List (List ℚ))) (m : List (List ℚ)) :
      SessionStep ⟨.solving, m0⟩ (.solveSuccess m) ⟨.solved, some m⟩
  | completeSolveFail (m0 : Option (List (List ℚ))) :
      SessionStep ⟨.solving, m0⟩ .solveFailure ⟨.failed, none⟩

/-- A freshly created session: `draft`, no matrix (spec §3: created when a
project first requests calibration). -/
def initialSession : SessionState := ⟨.draft, none⟩

/-- Session states reachable from a freshly created session through the
modelled transitions. -/
inductive ReachableSession : SessionState → Prop where
  | init : ReachableSession initialSession
  | step {s s2 : SessionState} {e : SessionEvent} :
      ReachableSession s → SessionStep s e s2 → ReachableSession s2

/-- Embeds the `HomographySession` interface of `api.ts` (status is a plain
string there; `matrix` and `reprojection_error` are optional). The `pairs`
array is embedded with its inline element shape. -/
structure SessionPair where
  id : String
  image_x_norm : ℚ
  image_y_norm : ℚ
  map_lat : ℚ
  map_lng : ℚ
  order_idx : ℕ
  deriving Repr

/-- Embeds the outer `HomographySession` record of `api.ts`. -/
structure HomographySession where
  id : String
  project_id : String
  status : String
  created_at : String
  solved_at : Option String
  pairs : List SessionPair
  matrix : Option (List (List ℚ))
  reprojection_error : Option ℚ
  deriving Repr

/-- Embeds `mockSession` of `CalibrationComponent.tsx` (lines 37–83): status
`"solved"`, four pairs, a 3×3 matrix and a reprojection error. -/
def mockSession (projectId : String) : HomographySession :=
  { id := "session-uuid-123"
    project_id := projectId
    status := "solved"
    created_at := "2024-12-13T10:01:00Z"
    solved_at := some "2024-12-13T10:02:00Z"
    pairs :=
      [{ id := "pair-1", image_x_norm := 1/4, image_y_norm := 3/10,
         map_lat := 377749/10000, map_lng := -1224194/10000, order_idx := 0 },
       { id := "pair-2", image_x_norm := 3/4, image_y_norm := 3/10,
         map_lat := 377750/10000, map_lng := -1224195/10000, order_idx := 1 },
       { id := "pair-3", image_x_norm := 1/4, image_y_norm := 7/10,
         map_lat := 377748/10000, map_lng := -1224193/10000, order_idx := 2 },
       { id := "pair-4", image_x_norm := 3/4, image_y_norm := 7/10,
         map_lat := 377751/10000, map_lng := -1224196/10000, order_idx := 3 }]
    matrix := some [[12/10, 1/10, -5/10], [5/100, 11/10, -3/10],
                    [1/1000, 2/1000, 1]]
    reprojection_error := some (142/10000000000000000) }

/-- Embeds the `disabled` expression of the Solve Homography button:
`solving || !session || session.status !== "draft"`. -/
def solveButtonDisabled (solving : Bool) (session : Option HomographySession) :
    Bool :=
  solving || session.isNone ||
    (match session with
     | none => true
     | some s => decide (s.status ≠ "draft"))

/-- C2: along every modelled session lifecycle the 3×3 matrix is present if
and only if the status is `solved` (so draft, solving and failed sessions
never carry a matrix and solved ones always do), and the one concrete
session the frontend holds — `mockSession`, status `"solved"` — carries its
matrix. -/
theorem matrix_iff_solved (s : SessionState) (projectId : String)
    (h : ReachableSession s) :
    (s.matrix.isSome ↔ s.status = SessionStatus.solved) ∧
    ((mockSession projectId).matrix.isSome ↔
      (mockSession projectId).status = "solved") := by
  refine ⟨?_, by simp [mockSession]⟩
  induction h with
  | init => simp [initialSession]
  | step _ hstep ih =>
    cases hstep with
    | editDraft m => simpa using ih
    | editSolved m => simp
    | editFailed m => simp
    | beginSolve m => simpa using ih
    | completeSolveOk m0 m => simp
    | completeSolveFail m0 => simp

/-- C2 (witness): the invariant theorem applied to the freshly created
session. -/
theorem matrix_iff_solved_witness :
    (initialSession.matrix.isSome ↔
      initialSession.status = SessionStatus.solved) ∧
    ((mockSession "project-1").matrix.isSome ↔
      (mockSession "project-1").status = "solved") :=
  matrix_iff_solved initialSession "project-1" ReachableSession.init

/-- C3: a point edit on a session whose status is `solved` or `failed`
leaves it in `draft` with the stale matrix cleared; in the modelled machine
a solve can only begin from `draft`, and in the frontend the Solve
Homography button is enabled only when the session's status string is
`"draft"`. -/
theorem point_edit_reverts_to_draft (s s2 t t2 : SessionState)
    (sess : HomographySession) (solving : Bool)
    (hstep : SessionStep s .editPairs s2)
    (hstat : s.status = SessionStatus.solved ∨ s.status = SessionStatus.failed)
    (hb : SessionStep t .solveBegin t2)
    (hbtn : solveButtonDisabled solving (some sess) = false) :
    s2.status = SessionStatus.draft ∧ s2.matrix = none ∧
    t.status = SessionStatus.draft ∧ sess.status = "draft" := by
  refine ⟨?_, ?_, ?_, ?_⟩
  · cases hstep with
    | editDraft m => simp at hstat
    | editSolved m => rfl
    | editFailed m => rfl
  · cases hstep with
    | editDraft m => simp at hstat
    | editSolved m => rfl
    | editFailed m => rfl
  · cases hb with
    | beginSolve m => rfl
  · simp only [solveButtonDisabled, Bool.or_eq_false_iff] at hbtn
    have := hbtn.2
    simpa using this

/-- C3 (witness): the theorem applied to a concrete edit on a solved session
with a matrix, a concrete solve start, and a session record in status
`"draft"` with the Solve button enabled. -/
theorem point_edit_reverts_to_draft_witness :
    (⟨SessionStatus.draft, none⟩ : SessionState).status = SessionStatus.draft ∧
    (⟨SessionStatus.draft, none⟩ : SessionState).matrix = none ∧
    (⟨SessionStatus.draft, none⟩ : SessionState).status = SessionStatus.draft ∧
    ({ mockSession "project-1" with status := "draft" }).status = "draft" :=
  point_edit_reverts_to_draft ⟨SessionStatus.solved, some [[1]]⟩
    ⟨SessionStatus.draft, none⟩ ⟨SessionStatus.draft, none⟩
    ⟨SessionStatus.solving, none⟩
    { mockSession "project-1" with status := "draft" } false
    (SessionStep.editSolved (some [[1]])) (Or.inl rfl)
    (SessionStep.beginSolve none) (by simp [solveButtonDisabled])

/-- Embeds the `Project` interface of `api.ts`. -/
structure Project where
  id : String
  user_id : String
  title : String
  description : Option String
  status : String
  video_path : Option String
  created_at : String
  updated_at : String
  deriving DecidableEq, Repr

/-- Embeds `handleDelete` of `dashboard/page.tsx`: the confirmation prompt
guards the whole action; on a successful `deleteProject` call the projects
state becomes `projects.filter((p) => p.id !== projectId)`; if the call
throws, only an alert is shown and the list is left untouched. `confirmed`
is the result of the `confirm(...)` prompt and `deleteSucceeds` records
whether the API call throws. -/
def handleDelete (confirmed deleteSucceeds : Bool)
    (projects : List Project) (projectId : String) : List Project :=
  if !confirmed then projects
  else if deleteSucceeds then projects.filter (fun p => p.id ≠ projectId)
  else projects

/-- C10: a confirmed, successful delete leaves exactly the entries whose id
differs from the deleted one, in their original relative order (the result
is a sublist of the previous list, membership is original membership minus
the deleted id, and per-entry multiplicities of the kept entries are
unchanged while entries with the deleted id are all gone); a declined
confirmation or a throwing delete call leaves the list unchanged. -/
theorem handleDelete_removes_exactly_deleted_id (projects : List Project)
    (projectId : String) (p : Project) (ok : Bool) :
    (handleDelete true true projects projectId).Sublist projects ∧
    (p ∈ handleDelete true true projects projectId ↔
      p ∈ projects ∧ p.id ≠ projectId) ∧
    ((handleDelete true true projects projectId).count p =
      if p.id = projectId then 0 else projects.count p) ∧
    handleDelete false ok projects projectId = projects ∧
    handleDelete true false projects projectId = projects := by
  refine ⟨?_, ?_, ?_, ?_, ?_⟩
  · simp only [handleDelete, Bool.not_true, ite_true, ite_false]
    exact List.filter_sublist projects
  · simp [handleDelete, List.mem_filter]
  · by_cases hid : p.id = projectId
    · simp only [handleDelete, Bool.not_true, if_true, if_false, ite_true,
        ite_false, hid, if_pos]
      rw [List.count_eq_zero]
      intro hmem
      have hkeep := (List.mem_filter.mp hmem).2
      simp [hid] at hkeep
    · simp only [handleDelete, Bool.not_true, ite_true, ite_false, hid,
        if_neg, if_false]
      exact List.count_filter (by simp [hid])
  · simp [handleDelete]
  · simp [handleDelete]

/-- A sample project entry used to instantiate the delete theorem. -/
def sampleProject1 : Project :=
  { id := "proj-1", user_id := "u1", title := "First", description := none,
    status := "created", video_path := none,
    created_at := "2024-12-13T10:00:00Z",
    updated_at := "2024-12-13T10:00:00Z" }

/-- A two-entry projects list used to instantiate the delete theorem. -/
def sampleProjects : List Project :=
  [sampleProject1,
   { id := "proj-2", user_id := "u1", title := "Second",
     description := some "crash at Main St", status := "completed",
     video_path := some "/videos/2.mp4",
     created_at := "2024-12-13T11:00:00Z",
     updated_at := "2024-12-13T11:30:00Z" }]

/-- C10 (witness): the delete theorem applied to a concrete two-entry list
and the id `"proj-1"`. -/
theorem handleDelete_removes_exactly_deleted_id_witness :
    (handleDelete true true sampleProjects "proj-1").Sublist sampleProjects ∧
    (sampleProject1 ∈ handleDelete true true sampleProjects "proj-1" ↔
      sampleProject1 ∈ sampleProjects ∧
        sampleProject1.id ≠ "proj-1") ∧
    ((handleDelete true true sampleProjects "proj-1").count
        sampleProject1 =
      if sampleProject1.id = "proj-1" then 0
      else sampleProjects.count sampleProject1) ∧
    handleDelete false true sampleProjects "proj-1" = sampleProjects ∧
    handleDelete true false sampleProjects "proj-1" = sampleProjects :=
  handleDelete_removes_exactly_deleted_id sampleProjects "proj-1"
    sampleProject1 true

/-- C7 (witness): the amended theorem applied to latitude 100 (rejected by
the modelled GeoProjector, stored by the frontend) and to the in-range
coordinate (37, -122). -/
theorem invalid_coordinate_rejected_witness :
    geoCoordinateCheck 100 0 = Except.error "InvalidCoordinateError" ∧
    geoCoordinateCheck 37 (-122) = Except.ok () ∧
    { pendingPoint with mapLat := some 100, mapLng := some 0 } ∈
      handleMapCoordinatesChange [pendingPoint] "point-1" 100 0 :=
  invalid_coordinate_rejected 100 0 37 (-122) [pendingPoint] "point-1"
    pendingPoint (Or.inr (Or.inl (by norm_num))) (by norm_num) (by norm_num)
    (by norm_num) (by norm_num) (List.mem_singleton.mpr rfl) rfl

/-- Embeds the TypeScript `any` of `api.ts` (`near_misses: any[]`,
`analysis_summary: Record<string, any>`) as untyped JSON values. -/
inductive JsonValue where
  | null
  | bool (b : Bool)
  | num (q : ℚ)
  | str (s : String)
  | arr (xs : List JsonValue)
  | obj (fields : List (String × JsonValue))

/-- Embeds the inline `key_frames` object type of `CollisionResponse` in
`api.ts`: four optional frame numbers. -/
structure KeyFrames where
  approach : Option ℚ
  contact : Option ℚ
  peak : Option ℚ
  separation : Option ℚ
  deriving DecidableEq, Repr

/-- Embeds the `CollisionResponse` interface of `api.ts` (lines 286–303),
field for field. -/
structure CollisionResponse where
  track_id_1 : ℚ
  track_id_2 : ℚ
  first_contact_frame : ℚ
  last_overlap_frame : ℚ
  peak_overlap_frame : ℚ
  max_iou : ℚ
  min_distance : ℚ
  duration_frames : ℚ
  collision_frames : List ℚ
  severity : String
  key_frames : KeyFrames
  deriving DecidableEq, Repr

/-- Embeds the `CollisionsListResponse` interface of `api.ts` (lines
305–312). Besides the five fields the spec's compatibility surface names it
carries a sixth field, `project_id`. -/
structure CollisionsListResponse where
  project_id : String
  collisions : List CollisionResponse
  near_misses : List JsonValue
  total_collisions : ℚ
  total_near_misses : ℚ
  analysis_summary : List (String × JsonValue)

/-- C8 (counterexample): a `CollisionsListResponse` is not determined by the
five fields the compatibility surface names — two values agreeing on
`collisions`, `near_misses`, `total_collisions`, `total_near_misses` and
`analysis_summary` still differ (in the extra `project_id` field), so the
structure does not carry exactly the named fields. -/
theorem collisions_list_response_has_extra_field :
    (CollisionsListResponse.mk "proj-1" [] [] 0 0 []).collisions =
      (CollisionsListResponse.mk "proj-2" [] [] 0 0 []).collisions ∧
    (CollisionsListResponse.mk "proj-1" [] [] 0 0 []).near_misses =
      (CollisionsListResponse.mk "proj-2" [] [] 0 0 []).near_misses ∧
    (CollisionsListResponse.mk "proj-1" [] [] 0 0 []).total_collisions =
      (CollisionsListResponse.mk "proj-2" [] [] 0 0 []).total_collisions ∧
    (CollisionsListResponse.mk "proj-1" [] [] 0 0 []).total_near_misses =
      (CollisionsListResponse.mk "proj-2" [] [] 0 0 []).total_near_misses ∧
    (CollisionsListResponse.mk "proj-1" [] [] 0 0 []).analysis_summary =
      (CollisionsListResponse.mk "proj-2" [] [] 0 0 []).analysis_summary ∧
    CollisionsListResponse.mk "proj-1" [] [] 0 0 [] ≠
      CollisionsListResponse.mk "proj-2" [] [] 0 0 [] := by
  refine ⟨rfl, rfl, rfl, rfl, rfl, ?_⟩
  intro h
  have hid := congrArg CollisionsListResponse.project_id h
  simp at hid

/-- C8 (amended): a `CollisionResponse` carries exactly the eleven fields
the compatibility surface names (any two values agreeing on them are equal),
its `key_frames` carries exactly the four optional phase fields, and a
`CollisionsListResponse` carries the five named fields plus the additional
`project_id` — agreement on all six is what forces equality there. -/
theorem collision_response_exact_fields (r1 r2 : CollisionResponse)
    (k1 k2 : KeyFrames) (l1 l2 : CollisionsListResponse)
    (h1 : r1.track_id_1 = r2.track_id_1)
    (h2 : r1.track_id_2 = r2.track_id_2)
    (h3 : r1.first_contact_frame = r2.first_contact_frame)
    (h4 : r1.last_overlap_frame = r2.last_overlap_frame)
    (h5 : r1.peak_overlap_frame = r2.peak_overlap_frame)
    (h6 : r1.max_iou = r2.max_iou)
    (h7 : r1.min_distance = r2.min_distance)
    (h8 : r1.duration_frames = r2.duration_frames)
    (h9 : r1.collision_frames = r2.collision_frames)
    (h10 : r1.severity = r2.severity)
    (h11 : r1.key_frames = r2.key_frames)
    (hk1 : k1.approach = k2.approach)
    (hk2 : k1.contact = k2.contact)
    (hk3 : k1.peak = k2.peak)
    (hk4 : k1.separation = k2.separation)
    (hl1 : l1.project_id = l2.project_id)
    (hl2 : l1.collisions = l2.collisions)
    (hl3 : l1.near_misses = l2.near_misses)
    (hl4 : l1.total_collisions = l2.total_collisions)
    (hl5 : l1.total_near_misses = l2.total_near_misses)
    (hl6 : l1.analysis_summary = l2.analysis_summary) :
    r1 = r2 ∧ k1 = k2 ∧ l1 = l2 := by
  refine ⟨?_, ?_, ?_⟩
  · cases r1; cases r2; simp_all
  · cases k1; cases k2; simp_all
  · cases l1; cases l2; simp_all

/-- A concrete collision response: the two-car contact of the testing
guide's sample payload (tracks 7 and 14, frames 49–60, peak at 52). -/
def sampleCollision : CollisionResponse :=
  { track_id_1 := 7
    track_id_2 := 14
    first_contact_frame := 49
    last_overlap_frame := 60
    peak_overlap_frame := 52
    max_iou := 4523/10000
    min_distance := 50
    duration_frames := 12
    collision_frames := [49, 50, 51, 52, 53, 54, 55, 56, 57, 58, 59, 60]
    severity := "moderate"
    key_frames :=
      { approach := some 45, contact := some 49, peak := some 52,
        separation := some 60 } }

/-- C8 (witness): the exact-fields theorem applied to `sampleCollision`, its
key frames and a concrete list response, all agreements discharged by
`rfl`. -/
theorem collision_response_exact_fields_witness :
    sampleCollision = sampleCollision ∧
    sampleCollision.key_frames = sampleCollision.key_frames ∧
    CollisionsListResponse.mk "proj-1" [sampleCollision] [] 1 0 [] =
      CollisionsListResponse.mk "proj-1" [sampleCollision] [] 1 0 [] :=
  collision_response_exact_fields sampleCollision sampleCollision
    sampleCollision.key_frames sampleCollision.key_frames
    (CollisionsListResponse.mk "proj-1" [sampleCollision] [] 1 0 [])
    (CollisionsListResponse.mk "proj-1" [sampleCollision] [] 1 0 [])
    rfl rfl rfl rfl rfl rfl rfl rfl rfl rfl rfl
    rfl rfl rfl rfl
    rfl rfl rfl rfl rfl rfl

/-- Embeds the computational fields of a `TimelineEvent` in `Timeline.tsx`
(`phase`, `frame`, `timestamp`); the label, description, color and icon are
presentational strings derived from these. -/
structure TimelineEvent where
  phase : String
  frame : ℚ
  timestamp : ℚ
  deriving DecidableEq, Repr

/-- Embeds `DEFAULT_FPS = 30` of `Timeline.tsx`. -/
def DEFAULT_FPS : ℚ := 30

/-- Embeds one `events.push({...})` of `Timeline.tsx`: an event whose
timestamp is `frame / fps`. -/
def mkTimelineEvent (phase : String) (frame fps : ℚ) : TimelineEvent :=
  { phase := phase, frame := frame, timestamp := frame / fps }

/-- Embeds one `if (key_frames.X !== undefined) events.push(...)` block. -/
def optionalEvent (phase : String) (f : Option ℚ) (fps : ℚ) :
    List TimelineEvent :=
  match f with
  | some frame => [mkTimelineEvent phase frame fps]
  | none => []

/-- Embeds the key-frames pass of `Timeline` (lines 90–154): events pushed
in the fixed order approach, contact, peak, separation. -/
def keyFrameEvents (kf : KeyFrames) (fps : ℚ) : List TimelineEvent :=
  optionalEvent "approach" kf.approach fps ++
  optionalEvent "contact" kf.contact fps ++
  optionalEvent "peak" kf.peak fps ++
  optionalEvent "separation" kf.separation fps

/-- Embeds the fallback pass of `Timeline` (lines 157–202): contact, peak
and separation events from the collision's top-level frame fields (always
present per the `CollisionResponse` type). -/
def fallbackEvents (c : CollisionResponse) (fps : ℚ) : List TimelineEvent :=
  [mkTimelineEvent "contact" c.first_contact_frame fps,
   mkTimelineEvent "peak" c.peak_overlap_frame fps,
   mkTimelineEvent "separation" c.last_overlap_frame fps]

/-- Embeds the full event list the `Timeline` component builds: the
key-frames events, or the fallback events when none were produced. -/
def timelineEvents (c : CollisionResponse) (fps : ℚ) : List TimelineEvent :=
  let events := keyFrameEvents c.key_frames fps
  if events.isEmpty then fallbackEvents c fps else events

/-- Embeds the component's prop defaulting `fps = DEFAULT_FPS`. -/
def timelineComponent (c : CollisionResponse) (fps : Option ℚ) :
    List TimelineEvent :=
  timelineEvents c (fps.getD DEFAULT_FPS)

/-- Every event an `optionalEvent` block produces has timestamp
`frame / fps`. -/
theorem optionalEvent_timestamp {phase : String} {f : Option ℚ} {fps : ℚ}
    {e : TimelineEvent} (h : e ∈ optionalEvent phase f fps) :
    e.timestamp = e.frame / fps := by
  cases f with
  | none => simp [optionalEvent] at h
  | some fr =>
    simp only [optionalEvent, List.mem_singleton] at h
    subst h
    rfl

/-- C9: every timeline event the component renders — from the key frames or
from the fallback fields — carries timestamp `frame / fps`, and with no fps
prop the component divides by `DEFAULT_FPS`, which is 30. -/
theorem timeline_timestamp_is_frame_div_fps (c : CollisionResponse)
    (fps : ℚ) (e : TimelineEvent) (he : e ∈ timelineEvents c fps) :
    e.timestamp = e.frame / fps ∧
    timelineComponent c none = timelineEvents c DEFAULT_FPS ∧
    DEFAULT_FPS = 30 := by
  refine ⟨?_, rfl, rfl⟩
  unfold timelineEvents at he
  by_cases hkf : (keyFrameEvents c.key_frames fps).isEmpty = true
  · rw [if_pos hkf] at he
    simp only [fallbackEvents, List.mem_cons, List.mem_singleton,
      List.not_mem_nil, or_false] at he
    rcases he with rfl | rfl | rfl <;> rfl
  · rw [if_neg hkf] at he
    simp only [keyFrameEvents, List.mem_append] at he
    rcases he with ((h | h) | h) | h <;> exact optionalEvent_timestamp h

/-- C9 (witness): the timestamp theorem applied to the approach event of
`sampleCollision` at 30 fps. -/
theorem timeline_timestamp_is_frame_div_fps_witness :
    (mkTimelineEvent "approach" 45 30).timestamp =
      (mkTimelineEvent "approach" 45 30).frame / 30 ∧
    timelineComponent sampleCollision none =
      timelineEvents sampleCollision DEFAULT_FPS ∧
    DEFAULT_FPS = 30 :=
  timeline_timestamp_is_frame_div_fps sampleCollision 30
    (mkTimelineEvent "approach" 45 30)
    (by simp [timelineEvents, keyFrameEvents, optionalEvent, sampleCollision])

/-- Modelled from the spec: the frame of maximum IoU within the qualifying
run `[a, b]` (spec §4.5, `peak` = `peak_overlap_frame`); the collision
detector's implementation is absent from the repository snapshot. -/
def peakOverlapFrame (a b : ℕ) (iouAt : ℕ → ℚ) : ℕ :=
  ((List.range (b + 1 - a)).map (fun i => a + i)).foldl
    (fun best f => if iouAt best < iouAt f then f else best) a

/-- A best-so-far scan over candidates within `[a, b]` starting inside
`[a, b]` stays inside `[a, b]`. -/
theorem foldl_best_bounds (iouAt : ℕ → ℚ) (a b : ℕ) (l : List ℕ)
    (best : ℕ) (hl : ∀ f ∈ l, a ≤ f ∧ f ≤ b) (h1 : a ≤ best)
    (h2 : best ≤ b) :
    a ≤ l.foldl (fun best f => if iouAt best < iouAt f then f else best) best ∧
    l.foldl (fun best f => if iouAt best < iouAt f then f else best) best ≤ b := by
  induction l generalizing best with
  | nil => exact ⟨h1, h2⟩
  | cons x xs ih =>
    simp only [List.foldl_cons]
    refine ih _ (fun f hf => hl f (List.mem_cons_of_mem x hf)) ?_ ?_
    · split_ifs with hx
      · exact (hl x (List.mem_cons_self x xs)).1
      · exact h1
    · split_ifs with hx
      · exact (hl x (List.mem_cons_self x xs)).2
      · exact h2

/-- The peak-overlap frame of a run lies within the run. -/
theorem peakOverlapFrame_bounds (a b : ℕ) (iouAt : ℕ → ℚ) (hab : a ≤ b) :
    a ≤ peakOverlapFrame a b iouAt ∧ peakOverlapFrame a b iouAt ≤ b := by
  refine foldl_best_bounds iouAt a b _ a ?_ le_rfl hab
  intro f hf
  simp only [List.mem_map, List.mem_range] at hf
  obtain ⟨i, hi, rfl⟩ := hf
  omega

/-- Modelled from the spec: `separation` = the first frame after `peak` at
which the run's overlap condition no longer holds, or the run end `b`
(`last_overlap_frame`) if none is found before the run end (spec §4.5). -/
def separationFrame (peak b : ℕ) (overlapAt : ℕ → Bool) : ℕ :=
  (((List.range (b - peak)).map (fun i => peak + 1 + i)).find?
      (fun f => !overlapAt f)).getD b

/-- The separation frame lies between the peak and the run end. -/
theorem separationFrame_bounds (peak b : ℕ) (overlapAt : ℕ → Bool)
    (hpb : peak ≤ b) :
    peak ≤ separationFrame peak b overlapAt ∧
    separationFrame peak b overlapAt ≤ b := by
  unfold separationFrame
  cases hf : ((List.range (b - peak)).map (fun i => peak + 1 + i)).find?
      (fun f => !overlapAt f) with
  | none =>
    simp only [hf, Option.getD_none]
    exact ⟨hpb, le_rfl⟩
  | some f =>
    have hmem := List.mem_of_find?_eq_some hf
    simp only [List.mem_map, List.mem_range] at hmem
    obtain ⟨i, hi, rfl⟩ := hmem
    simp only [hf, Option.getD_some]
    constructor <;> omega

/-- Modelled from the spec: whether the center distance decreases
monotonically from frame `f` up to frame `a` (spec §4.5's "monotonically
decreasing toward the pair", checked stepwise). -/
def distDecreasing (f a : ℕ) (distAt : ℕ → ℚ) : Bool :=
  (List.range (a - f)).all (fun i => decide (distAt (f + i + 1) ≤ distAt (f + i)))

/-- Modelled from the spec: `approach` = scanning backward from the first
contact frame `a`, the earliest frame within the look-back window of `w`
frames from which the center distance decreases monotonically toward first
contact; omitted if no such frame exists (spec §4.5). -/
def approachFrame (a w : ℕ) (distAt : ℕ → ℚ) : Option ℕ :=
  ((List.range (w + 1)).reverse.map (fun i => a - i)).find?
    (fun f => distDecreasing f a distAt)

/-- An approach frame, when found, does not lie after first contact. -/
theorem approachFrame_le (a w : ℕ) (distAt : ℕ → ℚ) (f : ℕ)
    (hf : approachFrame a w distAt = some f) : f ≤ a := by
  have hmem := List.mem_of_find?_eq_some hf
  simp only [List.mem_map, List.mem_reverse, List.mem_range] at hmem
  obtain ⟨i, hi, rfl⟩ := hmem
  omega

/-- Modelled from the spec: the `key_frames` extraction of §4.5 for a
qualifying run spanning frames `a` to `b`: `contact` = run start, `peak` =
max-IoU frame, `separation` = first post-peak non-overlap frame or run end,
`approach` from the bounded backward scan (absent when the scan fails). -/
def extractKeyFrames (a b w : ℕ) (iouAt distAt : ℕ → ℚ)
    (overlapAt : ℕ → Bool) : KeyFrames :=
  { approach := (approachFrame a w distAt).map (Nat.cast : ℕ → ℚ)
    contact := some (a : ℚ)
    peak := some ((peakOverlapFrame a b iouAt : ℕ) : ℚ)
    separation :=
      some ((separationFrame (peakOverlapFrame a b iouAt) b overlapAt : ℕ) : ℚ) }

/-- C4: whenever all four key frames of an extracted `key_frames` record are
present they satisfy approach ≤ contact ≤ peak ≤ separation, and the four
timeline events the Timeline component builds from them — in the fixed
order approach, contact, peak, separation — are in non-decreasing frame and
timestamp order. -/
theorem extracted_key_frames_ordered (a b w : ℕ) (iouAt distAt : ℕ → ℚ)
    (overlapAt : ℕ → Bool) (fa fc fp fs fps : ℚ)
    (hab : a ≤ b) (hfps : 0 < fps)
    (ha : (extractKeyFrames a b w iouAt distAt overlapAt).approach = some fa)
    (hc : (extractKeyFrames a b w iouAt distAt overlapAt).contact = some fc)
    (hp : (extractKeyFrames a b w iouAt distAt overlapAt).peak = some fp)
    (hs : (extractKeyFrames a b w iouAt distAt overlapAt).separation = some fs) :
    fa ≤ fc ∧ fc ≤ fp ∧ fp ≤ fs ∧
    List.Chain' (· ≤ ·)
      ((keyFrameEvents (extractKeyFrames a b w iouAt distAt overlapAt) fps).map
        TimelineEvent.frame) ∧
    List.Chain' (· ≤ ·)
      ((keyFrameEvents (extractKeyFrames a b w iouAt distAt overlapAt) fps).map
        TimelineEvent.timestamp) := by
  have hpeak := peakOverlapFrame_bounds a b iouAt hab
  have hsep := separationFrame_bounds (peakOverlapFrame a b iouAt) b overlapAt
    hpeak.2
  have ha2 : (approachFrame a w distAt).map (Nat.cast : ℕ → ℚ) = some fa := ha
  rw [Option.map_eq_some'] at ha2
  obtain ⟨n, hn, hfa⟩ := ha2
  have hfc : (a : ℚ) = fc := Option.some_inj.mp hc
  have hfp : ((peakOverlapFrame a b iouAt : ℕ) : ℚ) = fp := Option.some_inj.mp hp
  have hfs : ((separationFrame (peakOverlapFrame a b iouAt) b overlapAt : ℕ) : ℚ)
      = fs := Option.some_inj.mp hs
  subst hfa
  subst hfc
  subst hfp
  subst hfs
  have h1 : ((n : ℚ)) ≤ (a : ℚ) := by
    exact_mod_cast approachFrame_le a w distAt n hn
  have h2 : ((a : ℚ)) ≤ (peakOverlapFrame a b iouAt : ℚ) := by
    exact_mod_cast hpeak.1
  have h3 : ((peakOverlapFrame a b iouAt : ℚ)) ≤
      ((separationFrame (peakOverlapFrame a b iouAt) b overlapAt : ℕ) : ℚ) := by
    exact_mod_cast hsep.1
  refine ⟨h1, h2, h3, ?_, ?_⟩
  · simp only [keyFrameEvents, extractKeyFrames, hn, Option.map_some',
      optionalEvent, mkTimelineEvent, List.cons_append, List.nil_append,
      List.map_cons, List.map_nil, List.chain'_cons, List.chain'_singleton,
      and_true]
    exact ⟨h1, h2, h3⟩
  · simp only [keyFrameEvents, extractKeyFrames, hn, Option.map_some',
      optionalEvent, mkTimelineEvent, List.cons_append, List.nil_append,
      List.map_cons, List.map_nil, List.chain'_cons, List.chain'_singleton,
      and_true]
    exact ⟨(div_le_div_iff_of_pos_right hfps).mpr h1,
      (div_le_div_iff_of_pos_right hfps).mpr h2,
      (div_le_div_iff_of_pos_right hfps).mpr h3⟩

/-- C4 (witness): the ordering theorem applied to a concrete run spanning
frames 49–60 with a look-back window of 4 frames and constant per-frame
metrics. -/
theorem extracted_key_frames_ordered_witness :
    (45 : ℚ) ≤ 49 ∧ (49 : ℚ) ≤ 49 ∧ (49 : ℚ) ≤ 60 ∧
    List.Chain' (· ≤ ·)
      ((keyFrameEvents (extractKeyFrames 49 60 4 (fun _ => 0) (fun _ => 0)
          (fun _ => true)) 30).map TimelineEvent.frame) ∧
    List.Chain' (· ≤ ·)
      ((keyFrameEvents (extractKeyFrames 49 60 4 (fun _ => 0) (fun _ => 0)
          (fun _ => true)) 30).map TimelineEvent.timestamp) :=
  extracted_key_frames_ordered 49 60 4 (fun _ => 0) (fun _ => 0)
    (fun _ => true) 45 49 49 60 30 (by decide) (by norm_num)
    (by decide) (by decide) (by decide) (by decide)

/-- Modelled from the spec: an axis-aligned bounding box `(x, y, w, h)`
(spec §6 detection input contract); the collision detector that consumes
them is absent from the repository snapshot. -/
structure Box where
  x : ℚ
  y : ℚ
  w : ℚ
  h : ℚ
  deriving DecidableEq, Repr

/-- Width of the intersection rectangle of two boxes (0 when disjoint in
x). -/
def interWidth (A B : Box) : ℚ :=
  max 0 (min (A.x + A.w) (B.x + B.w) - max A.x B.x)

/-- Height of the intersection rectangle of two boxes (0 when disjoint in
y). -/
def interHeight (A B : Box) : ℚ :=
  max 0 (min (A.y + A.h) (B.y + B.h) - max A.y B.y)

/-- Area of the intersection rectangle of two boxes. -/
def interArea (A B : Box) : ℚ := interWidth A B * interHeight A B

/-- Area of a box. -/
def boxArea (A : Box) : ℚ := A.w * A.h

/-- Modelled from the spec: intersection-over-union of two axis-aligned
bounding boxes (spec §4.5 and glossary: ratio of overlapping area to
combined area); the collision detector's implementation is absent from the
repository snapshot. -/
def iou (A B : Box) : ℚ :=
  interArea A B / (boxArea A + boxArea B - interArea A B)

/-- Two boxes are disjoint when they are separated along the x or the y
axis. -/
def BoxDisjoint (A B : Box) : Prop :=
  A.x + A.w ≤ B.x ∨ B.x + B.w ≤ A.x ∨ A.y + A.h ≤ B.y ∨ B.y + B.h ≤ A.y

instance (A B : Box) : Decidable (BoxDisjoint A B) := by
  unfold BoxDisjoint
  infer_instance

/-- The intersection width is nonnegative. -/
theorem interWidth_nonneg (A B : Box) : 0 ≤ interWidth A B :=
  le_max_left 0 _

/-- The intersection height is nonnegative. -/
theorem interHeight_nonneg (A B : Box) : 0 ≤ interHeight A B :=
  le_max_left 0 _

/-- The intersection area is nonnegative. -/
theorem interArea_nonneg (A B : Box) : 0 ≤ interArea A B :=
  mul_nonneg (interWidth_nonneg A B) (interHeight_nonneg A B)

/-- The intersection width never exceeds the first box's width. -/
theorem interWidth_le_first (A B : Box) (hw : 0 ≤ A.w) :
    interWidth A B ≤ A.w := by
  rw [interWidth]
  apply max_le hw
  have h := sub_le_sub (min_le_left (A.x + A.w) (B.x + B.w))
    (le_max_left A.x B.x)
  simpa using h

/-- The intersection width never exceeds the second box's width. -/
theorem interWidth_le_second (A B : Box) (hw : 0 ≤ B.w) :
    interWidth A B ≤ B.w := by
  rw [interWidth]
  apply max_le hw
  have h := sub_le_sub (min_le_right (A.x + A.w) (B.x + B.w))
    (le_max_right A.x B.x)
  simpa using h

/-- The intersection height never exceeds the first box's height. -/
theorem interHeight_le_first (A B : Box) (hh : 0 ≤ A.h) :
    interHeight A B ≤ A.h := by
  rw [interHeight]
  apply max_le hh
  have h := sub_le_sub (min_le_left (A.y + A.h) (B.y + B.h))
    (le_max_left A.y B.y)
  simpa using h

/-- The intersection height never exceeds the second box's height. -/
theorem interHeight_le_second (A B : Box) (hh : 0 ≤ B.h) :
    interHeight A B ≤ B.h := by
  rw [interHeight]
  apply max_le hh
  have h := sub_le_sub (min_le_right (A.y + A.h) (B.y + B.h))
    (le_max_right A.y B.y)
  simpa using h

/-- The intersection area never exceeds the first box's area. -/
theorem interArea_le_first (A B : Box) (hw : 0 ≤ A.w) (hh : 0 ≤ A.h) :
    interArea A B ≤ boxArea A :=
  mul_le_mul (interWidth_le_first A B hw) (interHeight_le_first A B hh)
    (interHeight_nonneg A B) hw

/-- The intersection area never exceeds the second box's area. -/
theorem interArea_le_second (A B : Box) (hw : 0 ≤ B.w) (hh : 0 ≤ B.h) :
    interArea A B ≤ boxArea B :=
  mul_le_mul (interWidth_le_second A B hw) (interHeight_le_second A B hh)
    (interHeight_nonneg A B) hw

/-- Disjoint boxes have an empty intersection. -/
theorem interArea_eq_zero_of_disjoint (A B : Box) (h : BoxDisjoint A B) :
    interArea A B = 0 := by
  rcases h with h | h | h | h
  · have hx : min (A.x + A.w) (B.x + B.w) ≤ max A.x B.x :=
      le_trans (min_le_left _ _) (le_trans h (le_max_right _ _))
    rw [interArea, interWidth, max_eq_left (sub_nonpos.mpr hx), zero_mul]
  · have hx : min (A.x + A.w) (B.x + B.w) ≤ max A.x B.x :=
      le_trans (min_le_right _ _) (le_trans h (le_max_left _ _))
    rw [interArea, interWidth, max_eq_left (sub_nonpos.mpr hx), zero_mul]
  · have hy : min (A.y + A.h) (B.y + B.h) ≤ max A.y B.y :=
      le_trans (min_le_left _ _) (le_trans h (le_max_right _ _))
    rw [interArea, interHeight, max_eq_left (sub_nonpos.mpr hy), mul_zero]
  · have hy : min (A.y + A.h) (B.y + B.h) ≤ max A.y B.y :=
      le_trans (min_le_right _ _) (le_trans h (le_max_left _ _))
    rw [interArea, interHeight, max_eq_left (sub_nonpos.mpr hy), mul_zero]

/-- C5: the modelled IoU satisfies the spec's algebra — identical boxes
(of positive extent) give IoU 1, IoU is symmetric, disjoint boxes give
IoU 0, and IoU always lies in `[0, 1]` for boxes of positive extent. -/
theorem iou_spec_properties (A B C D E F G : Box)
    (hAw : 0 < A.w) (hAh : 0 < A.h)
    (hDE : BoxDisjoint D E)
    (hFw : 0 < F.w) (hFh : 0 < F.h) (hGw : 0 < G.w) (hGh : 0 < G.h) :
    iou A A = 1 ∧ iou B C = iou C B ∧ iou D E = 0 ∧
    0 ≤ iou F G ∧ iou F G ≤ 1 := by
  have hFG2 := interArea_le_second F G hGw.le hGh.le
  have hFG1 := interArea_le_first F G hFw.le hFh.le
  have hFpos : 0 < boxArea F := mul_pos hFw hFh
  have hGpos : 0 < boxArea G := mul_pos hGw hGh
  have hden : 0 < boxArea F + boxArea G - interArea F G := by linarith
  refine ⟨?_, ?_, ?_, ?_, ?_⟩
  · have hw : interWidth A A = A.w := by
      rw [interWidth, min_self, max_self, add_sub_cancel_left,
        max_eq_right hAw.le]
    have hh : interHeight A A = A.h := by
      rw [interHeight, min_self, max_self, add_sub_cancel_left,
        max_eq_right hAh.le]
    rw [iou, interArea, hw, hh, boxArea]
    have hself : A.w * A.h + A.w * A.h - A.w * A.h = A.w * A.h := by ring
    rw [hself]
    exact div_self (by positivity)
  · simp only [iou, interArea, interWidth, interHeight, boxArea]
    rw [min_comm (B.x + B.w) (C.x + C.w), max_comm B.x C.x,
      min_comm (B.y + B.h) (C.y + C.h), max_comm B.y C.y,
      add_comm (B.w * B.h) (C.w * C.h)]
  · rw [iou, interArea_eq_zero_of_disjoint D E hDE, zero_div]
  · exact div_nonneg (interArea_nonneg F G) hden.le
  · rw [iou, div_le_one hden]
    linarith

/-- The spec scenario's first box `(600, 400, 100, 80)`. -/
def scenarioBoxA : Box := { x := 600, y := 400, w := 100, h := 80 }

/-- The spec scenario's second box `(650, 420, 100, 80)`. -/
def scenarioBoxB : Box := { x := 650, y := 420, w := 100, h := 80 }

/-- C5 (witness): the IoU theorem applied to the spec scenario's boxes and
a disjoint unit-box pair. -/
theorem iou_spec_properties_witness :
    iou scenarioBoxA scenarioBoxA = 1 ∧
    iou scenarioBoxA scenarioBoxB = iou scenarioBoxB scenarioBoxA ∧
    iou (Box.mk 0 0 1 1) (Box.mk 5 0 1 1) = 0 ∧
    0 ≤ iou scenarioBoxA scenarioBoxB ∧ iou scenarioBoxA scenarioBoxB ≤ 1 :=
  iou_spec_properties scenarioBoxA scenarioBoxA scenarioBoxB
    (Box.mk 0 0 1 1) (Box.mk 5 0 1 1) scenarioBoxA scenarioBoxB
    (by norm_num [scenarioBoxA]) (by norm_num [scenarioBoxA])
    (Or.inl (by norm_num)) (by norm_num [scenarioBoxA])
    (by norm_num [scenarioBoxA]) (by norm_num [scenarioBoxB])
    (by norm_num [scenarioBoxB])

/-- The ordered severity label set of the spec: minor < moderate < severe. -/
inductive Severity where
  | minor
  | moderate
  | severe
  deriving DecidableEq, Repr

/-- Numeric rank realizing the ordering of the severity labels. -/
def severityRank : Severity → ℕ
  | .minor => 0
  | .moderate => 1
  | .severe => 2

/-- Modelled from the spec: the configurable severity thresholds (spec §4.5
and §9: thresholds are configuration, not hard-coded constants); the
collision detector's implementation is absent from the repository
snapshot. -/
structure SeverityConfig where
  moderateIou : ℚ
  severeIou : ℚ
  deriving DecidableEq, Repr

/-- Modelled from the spec: the severity classification, a threshold mapping
from `max_iou` to the ordered label set `{minor, moderate, severe}`
(spec §4.5); total by construction. -/
def classifySeverity (cfg : SeverityConfig) (maxIou : ℚ) : Severity :=
  if cfg.severeIou ≤ maxIou then Severity.severe
  else if cfg.moderateIou ≤ maxIou then Severity.moderate
  else Severity.minor

/-- C6: for every `max_iou` in `[0, 1]` the classification yields exactly
one label, and for a fixed configuration (duration fixed) a larger
`max_iou` never yields a strictly lower label. -/
theorem severity_total_and_monotone (cfg : SeverityConfig) (m m1 m2 : ℚ)
    (h0 : 0 ≤ m) (h1 : m ≤ 1) (h12 : m1 ≤ m2) :
    (∃! s, classifySeverity cfg m = s) ∧
    severityRank (classifySeverity cfg m1) ≤
      severityRank (classifySeverity cfg m2) := by
  constructor
  · exact ⟨classifySeverity cfg m, rfl, fun s hs => hs.symm⟩
  · unfold classifySeverity
    split_ifs <;> simp [severityRank] <;> linarith

/-- C6 (witness): the classification theorem applied to thresholds
(0.3, 0.7) with `max_iou` 0 and the pair 0 ≤ 1. -/
theorem severity_total_and_monotone_witness :
    (∃! s, classifySeverity (SeverityConfig.mk (3/10) (7/10)) 0 = s) ∧
    severityRank (classifySeverity (SeverityConfig.mk (3/10) (7/10)) 0) ≤
      severityRank (classifySeverity (SeverityConfig.mk (3/10) (7/10)) 1) :=
  severity_total_and_monotone (SeverityConfig.mk (3/10) (7/10)) 0 0 1
    (by norm_num) (by norm_num) (by norm_num)
